import Mathlib

/-!
Verification development for `json_to_csv.py`: a shallow embedding of the
record-processing pipeline (coercion, schema validation, field extraction,
record reading, CSV writing, folder processing) together with theorems about
its behaviour.

Modelling conventions:
* Decoded JSON/Python values are the inductive `PyVal`; Python `dict`s are
  association lists (`PyDict`); Python floats are modelled as rationals
  (every operation the pipeline performs on them — parsing a plain decimal
  literal, truncation to an integer, comparison — is exact on the inputs
  analysed here, so no rounding behaviour is relied upon).
* Fallible Python code (functions that may raise) returns `Option`; `none`
  models a raised exception.
* `str(value)` is modelled by `pyStr`: exact for `None`, booleans, ints,
  strings and integral floats; for non-integral floats and containers the
  textual form is a placeholder (no analysed property depends on those
  forms, only on whether the form lies in a fixed finite set of words,
  which it never does for bracketed or slash-containing strings).
* `float(value)` is modelled by `pyFloat`; for strings it accepts an
  optionally signed plain decimal literal after trimming whitespace
  (exponents, `inf`/`nan` and digit underscores are not modelled; no input
  analysed here uses them).
-/

/-- A decoded JSON / Python value as handled by the pipeline. -/
inductive PyVal where
  | none
  | bool (b : Bool)
  | int (n : Int)
  | float (q : Rat)
  | str (s : String)
  | list (xs : List PyVal)
  | dict (entries : List (String × PyVal))

/-- A Python `dict` decoded from a JSON object: an association list. -/
abbrev PyDict := List (String × PyVal)

/-- Python `value is None`. -/
def PyVal.isNone : PyVal → Bool
  | PyVal.none => true
  | _ => false

/-- Python `isinstance(value, bool)`. -/
def PyVal.isBool : PyVal → Bool
  | PyVal.bool _ => true
  | _ => false

/-- Python `record.get(key)` on an association-list dict: first matching key. -/
def pyGet : PyDict → String → Option PyVal
  | [], _ => Option.none
  | (k, v) :: rest, key => if k = key then Option.some v else pyGet rest key

/-- Python `record.keys()`. -/
def keys (r : PyDict) : List String := r.map Prod.fst

/-- The ASCII whitespace characters stripped by Python `str.strip()`. -/
def isSpaceChar (c : Char) : Bool :=
  c = ' ' || c = '\t' || c = '\n' || c = '\r' || c = '\x0b' || c = '\x0c'

/-- Python `s.strip()` (ASCII whitespace). -/
def pyStrip (s : String) : String :=
  String.mk (((s.data.dropWhile isSpaceChar).reverse.dropWhile isSpaceChar).reverse)

/-- Lower-casing of one ASCII character, as Python `str.lower()` does. -/
def pyLowerChar (c : Char) : Char :=
  if 65 ≤ c.toNat ∧ c.toNat ≤ 90 then Char.ofNat (c.toNat + 32) else c

/-- Python `s.lower()` (ASCII). -/
def pyLower (s : String) : String := String.mk (s.data.map pyLowerChar)

/-- Decimal digit value of a character. -/
def digitVal (c : Char) : Nat := c.toNat - 48

/-- Value of a list of decimal digits read as a natural number. -/
def natOfDigits : List Char → Nat
  | [] => 0
  | c :: cs => natOfDigits cs + digitVal c * 10 ^ cs.length

/-- Python `str` of a float.  Exact for integral floats (`1.0` prints as
`"1.0"`); other floats fall back to a `num/den` placeholder form (never a
word from the boolean truthy/falsy sets, which is all that is relied on). -/
def floatRepr (q : Rat) : String :=
  if q.den = 1 then toString q.num ++ ".0" else toString q.num ++ "/" ++ toString q.den

/-- Python `str(value)` for pipeline values.  Exact for `None`, booleans,
ints, strings and integral floats; containers use a bracketed placeholder
(element quoting of Python `repr` is not reproduced; no analysed property
depends on container string forms). -/
def pyStr : PyVal → String
  | PyVal.none => "None"
  | PyVal.bool true => "True"
  | PyVal.bool false => "False"
  | PyVal.int n => toString n
  | PyVal.float q => floatRepr q
  | PyVal.str s => s
  | PyVal.list xs => "[" ++ String.intercalate ", " (xs.map pyStrAux) ++ "]"
  | PyVal.dict es => "\x7b" ++ String.intercalate ", " (es.map fun kv => kv.1 ++ ": " ++ pyStrAux kv.2) ++ "\x7d"
where
  /-- Placeholder textual form of a container element. -/
  pyStrAux : PyVal → String
  | PyVal.none => "None"
  | PyVal.bool true => "True"
  | PyVal.bool false => "False"
  | PyVal.int n => toString n
  | PyVal.float q => floatRepr q
  | PyVal.str s => s
  | PyVal.list _ => "[...]"
  | PyVal.dict _ => "\x7b...\x7d"

/-- Python `float(s)` on the part of a trimmed string after an optional
sign: digits with at most one decimal point, at least one digit in total. -/
def parseUnsignedDecimal (cs : List Char) : Option Rat :=
  let intPart := cs.takeWhile Char.isDigit
  let rest := cs.dropWhile Char.isDigit
  match rest with
  | [] =>
      if intPart.isEmpty then Option.none
      else Option.some (mkRat (natOfDigits intPart) 1)
  | '.' :: frac =>
      if frac.all Char.isDigit && !(intPart.isEmpty && frac.isEmpty) then
        Option.some (mkRat (natOfDigits intPart * 10 ^ frac.length + natOfDigits frac) (10 ^ frac.length))
      else Option.none
  | _ => Option.none

/-- Python `float(s)` applied to a string: trims whitespace, reads an
optional sign and a plain decimal literal; `Option.none` models the raised
`ValueError` on anything else. -/
def parseDecimal (s : String) : Option Rat :=
  match (pyStrip s).data with
  | '+' :: cs => parseUnsignedDecimal cs
  | '-' :: cs => (parseUnsignedDecimal cs).map Rat.neg
  | cs => parseUnsignedDecimal cs

/-- Python `float(value)`: booleans map to `1.0`/`0.0`, numbers convert,
strings are parsed as decimal literals; every other value raises. -/
def pyFloat : PyVal → Option Rat
  | PyVal.bool b => Option.some (mkRat (if b then 1 else 0) 1)
  | PyVal.int n => Option.some (mkRat n 1)
  | PyVal.float q => Option.some q
  | PyVal.str s => parseDecimal s
  | _ => Option.none

/-- Python `int(f)` on a float: truncation toward zero. -/
def pyTrunc (q : Rat) : Int :=
  if Rat.blt q 0 then -((((-q.num).toNat) / q.den : Nat) : Int) else ((q.num.toNat / q.den : Nat) : Int)

/-- The fixed CSV schema of `json_to_csv.py`: ordered (column, kind) pairs. -/
def CSV_SCHEMA : List (String × String) :=
  [("callid", "str"),
   ("filename", "str"),
   ("timestamp", "str"),
   ("agent", "str"),
   ("account_id", "str"),
   ("total_call_time", "float"),
   ("primary_reason", "str"),
   ("call_type", "str"),
   ("call_category", "str"),
   ("call_outcome", "str"),
   ("last_theme_emotion", "str"),
   ("sentiment_score", "int"),
   ("food_program", "bool")]

/-- The required top-level fields of `json_to_csv.py` (the `themes` list is
optional and only used to derive `last_theme_emotion`). -/
def REQUIRED_FIELDS : List String :=
  ["callid", "filename", "timestamp", "agent", "account_id", "total_call_time",
   "primary_reason", "call_type", "call_category", "call_outcome", "sentiment_score", "food_program"]

/-- The function `coerce(value, typ)` of `json_to_csv.py`.  `Option.none` models a raised
exception (the `ValueError` wrapped as a coercion failure, or the
unknown-type `ValueError`). -/
def coerce (value : PyVal) (typ : String) : Option PyVal :=
  match value with
  | PyVal.none => Option.some PyVal.none
  | _ =>
    if typ = "str" then Option.some (PyVal.str (pyStr value))
    else if typ = "int" then
      match value with
      | PyVal.bool b => Option.some (PyVal.int (if b then 1 else 0))
      | _ => (pyFloat value).map fun q => PyVal.int (pyTrunc q)
    else if typ = "float" then
      (pyFloat value).map PyVal.float
    else if typ = "bool" then
      match value with
      | PyVal.bool _ => Option.some value
      | _ =>
        let s := pyLower (pyStrip (pyStr value))
        if s = "true" || s = "1" || s = "yes" || s = "y" then Option.some (PyVal.bool true)
        else if s = "false" || s = "0" || s = "no" || s = "n" then Option.some (PyVal.bool false)
        else Option.none
    else Option.none

/-- One validation error collected by `validate_schema`, tagged by which
check produced it; the missing-fields error carries the (sorted) list of
field names interpolated into the message string. -/
inductive VErr where
  | missingFields (fields : List String)
  | badTotalCallTime
  | badSentimentScore
  | badFoodProgram
deriving DecidableEq

/-- Python `sorted` on a list of strings (ascending, lexicographic). -/
def pySorted (l : List String) : List String := List.insertionSort (· ≤ ·) l

/-- Python `isinstance(v, (int, float, str, bool))`: the admissibility shapes for
`total_call_time` and `sentiment_score`. -/
def numericLike : PyVal → Bool
  | PyVal.int _ => true
  | PyVal.float _ => true
  | PyVal.str _ => true
  | PyVal.bool _ => true
  | _ => false

/-- Python `isinstance(v, (bool, str, int))`: the admissibility shapes for
`food_program`. -/
def boolLike : PyVal → Bool
  | PyVal.bool _ => true
  | PyVal.str _ => true
  | PyVal.int _ => true
  | _ => false

/-- The function `validate_schema(record)` of `json_to_csv.py`: returns
`(is_valid, errors)`.  The missing-field set is `REQUIRED_FIELDS` minus the
record's keys, reported sorted; the three shape checks fire only when the
key is present. -/
def validate_schema (r : PyDict) : Bool × List VErr :=
  let missing := REQUIRED_FIELDS.filter fun f => !(keys r).contains f
  let errors : List VErr :=
    (if !missing.isEmpty then [VErr.missingFields (pySorted missing)] else [])
    ++ (match pyGet r "total_call_time" with
        | Option.some v => if !numericLike v then [VErr.badTotalCallTime] else []
        | Option.none => [])
    ++ (match pyGet r "sentiment_score" with
        | Option.some v => if !numericLike v then [VErr.badSentimentScore] else []
        | Option.none => [])
    ++ (match pyGet r "food_program" with
        | Option.some v => if !boolLike v then [VErr.badFoodProgram] else []
        | Option.none => [])
  (errors.isEmpty, errors)

/-- The derivation of `last_theme_emotion` inside `extract_row`: the
`emotion` of the last element of a present, list-valued, non-empty
`themes`, provided that element is a dict and the key is present and
non-null; `Option.none` in every other case.  (The `try/except` wrapper in
the source is dead: no step of this derivation can raise.) -/
def lastThemeEmotion (r : PyDict) : Option String :=
  match pyGet r "themes" with
  | Option.some (PyVal.list ts) =>
      if ts.isEmpty then Option.none
      else
        match ts.getLast? with
        | Option.some (PyVal.dict d) =>
            (match pyGet d "emotion" with
             | Option.some emo => if emo.isNone then Option.none else Option.some (pyStr emo)
             | Option.none => Option.none)
        | _ => Option.none
  | _ => Option.none

/-- The per-column value built by `extract_row` for a non-derived column:
`coerce(record.get(col), typ) if record.get(col) is not None else None`. -/
def extractCell (r : PyDict) (ct : String × String) : Option PyVal :=
  let raw := (pyGet r ct.1).getD PyVal.none
  if raw.isNone then Option.some PyVal.none else coerce raw ct.2

/-- The `for col, typ in CSV_SCHEMA` accumulation loop: build one value per
element, aborting the whole row as soon as one element raises. -/
def buildRow {α β : Type} (f : α → Option β) : List α → Option (List β)
  | [] => Option.some []
  | a :: l =>
      match f a with
      | Option.some b => (buildRow f l).map fun bs => b :: bs
      | Option.none => Option.none

/-- The per-column value of `extract_row` including the derived column. -/
def rowCell (r : PyDict) (ct : String × String) : Option PyVal :=
  if ct.1 = "last_theme_emotion" then
    Option.some (match lastThemeEmotion r with
                 | Option.some s => PyVal.str s
                 | Option.none => PyVal.none)
  else extractCell r ct

/-- The function `extract_row(record)` of `json_to_csv.py`: the row in schema order, or
`Option.none` when a coercion raised (the whole record is then rejected). -/
def extract_row (r : PyDict) : Option (List PyVal) :=
  buildRow (rowCell r) CSV_SCHEMA

/-- The parse outcome of one line of a `.jsonl` file (after `strip()`):
blank, invalid JSON (`json.loads` raises `JSONDecodeError`), or a decoded
JSON value. -/
inductive Line where
  | blank
  | invalid
  | value (v : PyVal)

/-- The content of one discovered input file, at the level `json_to_csv.py`
observes it: a `.jsonl` file is its list of per-line parse outcomes; a
`.json` file is its whole-file parse outcome (`Option.none` models a
file-level read/parse exception); `unreadable` models a file of either kind
whose open/read raises. -/
inductive FileData where
  | jsonl (lines : List Line)
  | jsonFile (parsed : Option PyVal)
  | unreadable

/-- The `.jsonl` loop of `read_json_records`: each parsed line whose value
is a dict is yielded; blank lines, invalid lines and non-dict values are
skipped. -/
def readLines : List Line → List PyDict
  | [] => []
  | Line.blank :: rest => readLines rest
  | Line.invalid :: rest => readLines rest
  | Line.value v :: rest =>
      match v with
      | PyVal.dict d => d :: readLines rest
      | _ => readLines rest

/-- The `.json` list loop of `read_json_records`: dict elements are
yielded, non-dict elements skipped. -/
def readElems : List PyVal → List PyDict
  | [] => []
  | v :: rest =>
      match v with
      | PyVal.dict d => d :: readElems rest
      | _ => readElems rest

/-- The generator `read_json_records(path)` of `json_to_csv.py`, as a function of the
observed file content: the finite sequence of object records the file
yields. -/
def read_json_records : FileData → List PyDict
  | FileData.jsonl lines => readLines lines
  | FileData.jsonFile parsed =>
      match parsed with
      | Option.none => []
      | Option.some data =>
          match data with
          | PyVal.dict d => [d]
          | PyVal.list xs => readElems xs
          | _ => []
  | FileData.unreadable => []

/-- One CSV cell as the `csv` module writes a row value: `None` becomes the
empty field, anything else its `str` form. -/
def csvCell : PyVal → String
  | PyVal.none => ""
  | v => pyStr v

/-- The function `write_csv(rows, ...)` of `json_to_csv.py`, modelled at the level of
the emitted table: the header of canonical column names followed by one
line of cells per input row, in order. -/
def write_csv (rows : List (List PyVal)) : List (List String) :=
  (CSV_SCHEMA.map Prod.fst) :: rows.map (List.map csvCell)

/-- The mutable state of the `process_folder` loop: accumulated good rows
and the two counters (`total_records` is `seen`, plus `skipped`; rows
written is `rows.length`). -/
structure PState where
  rows : List (List PyVal)
  seen : Nat
  skipped : Nat

/-- The body of the record loop in `process_folder`: count the record as
seen; on validation failure count it skipped; otherwise extract, appending
the row on success and counting the record skipped when extraction raises. -/
def processRecord (st : PState) (rec : PyDict) : PState :=
  let st := { st with seen := st.seen + 1 }
  if !(validate_schema rec).1 then { st with skipped := st.skipped + 1 }
  else
    match extract_row rec with
    | Option.some row => { st with rows := st.rows ++ [row] }
    | Option.none => { st with skipped := st.skipped + 1 }

/-- The per-file step of `process_folder`: fold the record loop over the
records the file yields. -/
def processFile (st : PState) (f : FileData) : PState :=
  (read_json_records f).foldl processRecord st

/-- The whole record-processing loop of `process_folder`, over the
discovered files in order, starting from empty state. -/
def pipelineState (files : List FileData) : PState :=
  files.foldl processFile { rows := [], seen := 0, skipped := 0 }

/-- The one fatal error `process_folder` can raise: the
`FileNotFoundError` on a missing or non-directory input root. -/
inductive PipelineErr where
  | fileNotFoundError
deriving DecidableEq

/-- The function `process_folder(input_dir, ...)` of `json_to_csv.py` as a function of
the input root's status (`rootExists`, `rootIsDir`) and the contents of the
discovered files: either the fatal error (raised before any file is read
and before any output is written), or the written CSV table together with
the final `(seen, skipped)` counters. -/
def process_folder (rootExists rootIsDir : Bool) (files : List FileData) :
    Except PipelineErr (List (List String) × Nat × Nat) :=
  if !rootExists || !rootIsDir then Except.error PipelineErr.fileNotFoundError
  else
    let st := pipelineState files
    Except.ok (write_csv st.rows, st.seen, st.skipped)

example : coerce (PyVal.str "3.7") "int" = Option.some (PyVal.int 3) := by rfl
example : coerce (PyVal.bool true) "int" = Option.some (PyVal.int 1) := by rfl
example : coerce (PyVal.str "TRUE") "bool" = Option.some (PyVal.bool true) := by rfl
example : coerce (PyVal.str "maybe") "bool" = Option.none := by rfl
example : coerce (PyVal.str "abc") "float" = Option.none := by rfl
example : coerce (PyVal.int 1) "bool" = Option.some (PyVal.bool true) := by rfl

/-- A fully valid record (used by several concrete instances below). -/
def recGood : PyDict :=
  [("callid", PyVal.str "c1"), ("filename", PyVal.str "f"), ("timestamp", PyVal.str "t"),
   ("agent", PyVal.str "a"), ("account_id", PyVal.str "acc"),
   ("total_call_time", PyVal.float (mkRat 72 10)), ("primary_reason", PyVal.str "p"),
   ("call_type", PyVal.str "ct"), ("call_category", PyVal.str "cc"),
   ("call_outcome", PyVal.str "co"),
   ("themes", PyVal.list [PyVal.dict [("emotion", PyVal.str "Happy")], PyVal.dict [("emotion", PyVal.str "Sad")]]),
   ("sentiment_score", PyVal.int 4), ("food_program", PyVal.bool true)]

/-- A record missing the required `account_id` field. -/
def recNoAcct : PyDict :=
  [("callid", PyVal.str "c2"), ("filename", PyVal.str "f"), ("timestamp", PyVal.str "t"),
   ("agent", PyVal.str "a"),
   ("total_call_time", PyVal.int 3), ("primary_reason", PyVal.str "p"),
   ("call_type", PyVal.str "ct"), ("call_category", PyVal.str "cc"),
   ("call_outcome", PyVal.str "co"),
   ("sentiment_score", PyVal.int 4), ("food_program", PyVal.bool false)]

/-- A record that passes validation (`food_program` is a string, an
admissible shape) but whose extraction fails (the string is not in the
boolean truthy/falsy sets). -/
def recCoerceFail : PyDict :=
  [("callid", PyVal.str "c3"), ("filename", PyVal.str "f"), ("timestamp", PyVal.str "t"),
   ("agent", PyVal.str "a"), ("account_id", PyVal.str "acc"),
   ("total_call_time", PyVal.int 3), ("primary_reason", PyVal.str "p"),
   ("call_type", PyVal.str "ct"), ("call_category", PyVal.str "cc"),
   ("call_outcome", PyVal.str "co"),
   ("sentiment_score", PyVal.int 4), ("food_program", PyVal.str "maybe")]

/-- A record whose required `callid` key is present but null. -/
def recNullCallid : PyDict :=
  [("callid", PyVal.none), ("filename", PyVal.str "f"), ("timestamp", PyVal.str "t"),
   ("agent", PyVal.str "a"), ("account_id", PyVal.str "acc"),
   ("total_call_time", PyVal.int 3), ("primary_reason", PyVal.str "p"),
   ("call_type", PyVal.str "ct"), ("call_category", PyVal.str "cc"),
   ("call_outcome", PyVal.str "co"),
   ("sentiment_score", PyVal.int 4), ("food_program", PyVal.bool true)]

/-- A record whose `total_call_time` key is present but null. -/
def recNullTct : PyDict :=
  [("callid", PyVal.str "c5"), ("filename", PyVal.str "f"), ("timestamp", PyVal.str "t"),
   ("agent", PyVal.str "a"), ("account_id", PyVal.str "acc"),
   ("total_call_time", PyVal.none), ("primary_reason", PyVal.str "p"),
   ("call_type", PyVal.str "ct"), ("call_category", PyVal.str "cc"),
   ("call_outcome", PyVal.str "co"),
   ("sentiment_score", PyVal.int 4), ("food_program", PyVal.bool true)]

/-- The spec's end-to-end `.jsonl` file: a valid record, a record missing
`account_id`, and an invalid-JSON line. -/
def scenarioFile : FileData :=
  FileData.jsonl [Line.value (PyVal.dict recGood), Line.value (PyVal.dict recNoAcct), Line.invalid]

/-- A `buildRow` succeeds exactly when every component does. -/
lemma buildRow_isSome {α β : Type} (f : α → Option β) (l : List α) :
    (buildRow f l).isSome = l.all fun a => (f a).isSome := by
  induction l with
  | nil => rfl
  | cons a l ih =>
      cases h : f a <;> simp [buildRow, h, ih]

/-- Componentwise access to a successful `buildRow`. -/
lemma buildRow_get {α β : Type} (f : α → Option β) (l : List α) (bs : List β)
    (h : buildRow f l = Option.some bs) (i : Nat) : bs.get? i = (l.get? i).bind f := by
  induction l generalizing bs i with
  | nil =>
      simp only [buildRow, Option.some.injEq] at h
      subst h
      simp
  | cons a l ih =>
      cases ha : f a with
      | none => rw [buildRow, ha] at h; simp at h
      | some b =>
          rw [buildRow, ha] at h
          cases hl : buildRow f l with
          | none => rw [hl] at h; simp at h
          | some bs' =>
              rw [hl] at h
              have h2 : b :: bs' = bs := by simpa using h
              subst h2
              cases i with
              | zero => simpa using ha.symm
              | succ i => simpa using ih bs' hl i

/-- Predicate congruence: `List.all` respects pointwise-equal predicates on the list's members. -/
lemma all_congr_mem {α : Type} {l : List α} {p q : α → Bool}
    (h : ∀ a ∈ l, p a = q a) : l.all p = l.all q := by
  induction l with
  | nil => rfl
  | cons a l ih =>
      simp only [List.all_cons, h a (by simp), ih fun a ha => h a (by simp [ha])]

/-- C1: the coercion function satisfies the spec's reference table —
`coerce("3.7","integer") == 3`, `coerce(true,"integer") == 1`,
`coerce("TRUE","boolean") == true`, `coerce("maybe","boolean")` and
`coerce("abc","float")` fail, and `coerce(None, k)` is null for every kind
string `k` (including unknown ones, so no kind-specific logic is invoked);
in general, for integer kind, any non-boolean value accepted by the float
conversion is parsed as a float and then truncated. -/
theorem C1_coerce_table :
    coerce (PyVal.str "3.7") "int" = Option.some (PyVal.int 3)
    ∧ coerce (PyVal.bool true) "int" = Option.some (PyVal.int 1)
    ∧ coerce (PyVal.str "TRUE") "bool" = Option.some (PyVal.bool true)
    ∧ coerce (PyVal.str "maybe") "bool" = Option.none
    ∧ coerce (PyVal.str "abc") "float" = Option.none
    ∧ (∀ k : String, coerce PyVal.none k = Option.some PyVal.none)
    ∧ (∀ (v : PyVal) (q : Rat), pyFloat v = Option.some q → v.isBool = false →
        coerce v "int" = Option.some (PyVal.int (pyTrunc q))) := by
  refine ⟨by rfl, by rfl, by rfl, by rfl, by rfl, fun k => rfl, ?_⟩
  intro v q hq hb
  cases v with
  | none => simp [pyFloat] at hq
  | bool b => simp [PyVal.isBool] at hb
  | int n => simp [coerce, hq]
  | float x => simp [coerce, hq]
  | str s => simp [coerce, hq]
  | list xs => simp [pyFloat] at hq
  | dict es => simp [pyFloat] at hq

/-- C1 witness: the general integer rule applied to the numeric string
`"3.9"`, which parses to 39/10 and truncates to 3. -/
theorem C1_coerce_table_witness :
    coerce (PyVal.str "3.9") "int" = Option.some (PyVal.int 3) :=
  (C1_coerce_table.2.2.2.2.2.2 (PyVal.str "3.9") (mkRat 39 10) (by rfl) (by rfl)).trans (by rfl)

/-- C4 counterexample: the claim says every non-null value of a type other
than string or boolean fails boolean coercion, naming the integer 1 — but
the code stringifies the value first, so `coerce(1, "bool")` returns
`True`. -/
theorem C4_counterexample_int_one :
    coerce (PyVal.int 1) "bool" = Option.some (PyVal.bool true) := by rfl

/-- C4 (amended): for boolean kind, a boolean passes through unchanged; any
other non-null value is stringified, stripped and lower-cased, then
compared against the truthy set {"true","1","yes","y"} and the falsy set
{"false","0","no","n"}; a value whose string form is in neither set fails
with a coercion error.  In particular every string behaves as the claim
says, but a non-string value whose string form lies in a set (such as the
integer 1) coerces successfully. -/
theorem C4_bool_coercion :
    (∀ b : Bool, coerce (PyVal.bool b) "bool" = Option.some (PyVal.bool b))
    ∧ (∀ v : PyVal, v.isNone = false → v.isBool = false →
        coerce v "bool" =
          (let s := pyLower (pyStrip (pyStr v))
           if s = "true" || s = "1" || s = "yes" || s = "y" then Option.some (PyVal.bool true)
           else if s = "false" || s = "0" || s = "no" || s = "n" then Option.some (PyVal.bool false)
           else Option.none)) := by
  constructor
  · intro b; cases b <;> rfl
  · intro v hn hb
    cases v with
    | none => simp [PyVal.isNone] at hn
    | bool b => simp [PyVal.isBool] at hb
    | int n => rfl
    | float q => rfl
    | str s => rfl
    | list xs => rfl
    | dict es => rfl

/-- C4 witness: the amended rule applied to the string `" YES "`, whose
stripped lower-cased form lies in the truthy set. -/
theorem C4_bool_coercion_witness :
    coerce (PyVal.str " YES ") "bool" = Option.some (PyVal.bool true) :=
  (C4_bool_coercion.2 (PyVal.str " YES ") (by rfl) (by rfl)).trans (by rfl)

/-- C8: the CSV writer emits the 13 canonical column names as the header in
fixed schema order, then one line per input row in order with nulls as
empty fields; zero rows produce a header-only table, and N rows produce a
table of N + 1 lines. -/
theorem C8_write_csv_shape :
    ∀ rows : List (List PyVal),
      (write_csv rows).length = rows.length + 1
      ∧ (write_csv rows).head? = Option.some
          ["callid", "filename", "timestamp", "agent", "account_id", "total_call_time",
           "primary_reason", "call_type", "call_category", "call_outcome",
           "last_theme_emotion", "sentiment_score", "food_program"]
      ∧ (write_csv rows).tail = rows.map (List.map csvCell)
      ∧ csvCell PyVal.none = ""
      ∧ write_csv [] = [["callid", "filename", "timestamp", "agent", "account_id", "total_call_time",
           "primary_reason", "call_type", "call_category", "call_outcome",
           "last_theme_emotion", "sentiment_score", "food_program"]] := by
  intro rows
  refine ⟨by simp [write_csv], by rfl, by rfl, by rfl, by rfl⟩

/-- C9: when the input root does not exist or is not a directory, the run
fails with the directory-misconfiguration error (the code's
`FileNotFoundError`) before any processing: the result does not depend on
any file's content and no output table is produced. -/
theorem C9_invalid_root_fatal :
    ∀ (rootExists rootIsDir : Bool) (files files2 : List FileData),
      rootExists = false ∨ rootIsDir = false →
      process_folder rootExists rootIsDir files = Except.error PipelineErr.fileNotFoundError
      ∧ process_folder rootExists rootIsDir files = process_folder rootExists rootIsDir files2 := by
  intro rootExists rootIsDir files files2 h
  rcases h with h | h <;> subst h <;> simp [process_folder]

/-- C9 witness: a missing root with a non-empty file list fails fatally and
ignores the files. -/
theorem C9_invalid_root_fatal_witness :
    process_folder false true [FileData.unreadable] = Except.error PipelineErr.fileNotFoundError :=
  (C9_invalid_root_fatal false true [FileData.unreadable] [] (Or.inl rfl)).1

/-- Every schema column name differs from the `themes` input field. -/
lemma schema_cols_ne_themes : ∀ s ∈ CSV_SCHEMA.map Prod.fst, s ≠ "themes" := by decide

/-- C2: the derived `last_theme_emotion` equals the stringified `emotion`
of the last element of `themes` exactly when `themes` is present, is a
list, is non-empty, its last element is a dict, and that dict's `emotion`
key is present and non-null; in every other case (field absent, value not
a list, empty list, last element not a dict, key absent, key null) it is
null.  Extraction can only fail on a non-derived column, the derived value
sits at schema position 10 of a produced row, and replacing the `themes`
field never changes whether extraction succeeds — so a record is never
rejected on account of this field. -/
theorem C2_last_theme_emotion :
    (∀ (r : PyDict) (ts : List PyVal) (d : PyDict) (emo : PyVal),
       pyGet r "themes" = Option.some (PyVal.list ts) →
       ts.getLast? = Option.some (PyVal.dict d) →
       pyGet d "emotion" = Option.some emo →
       emo.isNone = false →
       lastThemeEmotion r = Option.some (pyStr emo))
    ∧ (∀ r : PyDict, pyGet r "themes" = Option.none → lastThemeEmotion r = Option.none)
    ∧ (∀ (r : PyDict) (v : PyVal), pyGet r "themes" = Option.some v →
         (∀ ts, v ≠ PyVal.list ts) → lastThemeEmotion r = Option.none)
    ∧ (∀ r : PyDict, pyGet r "themes" = Option.some (PyVal.list []) → lastThemeEmotion r = Option.none)
    ∧ (∀ (r : PyDict) (ts : List PyVal) (x : PyVal), pyGet r "themes" = Option.some (PyVal.list ts) →
         ts.getLast? = Option.some x → (∀ d, x ≠ PyVal.dict d) → lastThemeEmotion r = Option.none)
    ∧ (∀ (r : PyDict) (ts : List PyVal) (d : PyDict), pyGet r "themes" = Option.some (PyVal.list ts) →
         ts.getLast? = Option.some (PyVal.dict d) → pyGet d "emotion" = Option.none →
         lastThemeEmotion r = Option.none)
    ∧ (∀ (r : PyDict) (ts : List PyVal) (d : PyDict), pyGet r "themes" = Option.some (PyVal.list ts) →
         ts.getLast? = Option.some (PyVal.dict d) → pyGet d "emotion" = Option.some PyVal.none →
         lastThemeEmotion r = Option.none)
    ∧ (∀ r : PyDict, extract_row r = Option.none →
         ∃ ct ∈ CSV_SCHEMA, ct.1 ≠ "last_theme_emotion" ∧ extractCell r ct = Option.none)
    ∧ (∀ (r : PyDict) (vals : List PyVal), extract_row r = Option.some vals →
         vals.get? 10 = Option.some (match lastThemeEmotion r with
                                     | Option.some s => PyVal.str s
                                     | Option.none => PyVal.none))
    ∧ (∀ (r : PyDict) (t : PyVal),
         (extract_row (("themes", t) :: r)).isSome = (extract_row r).isSome) := by
  refine ⟨?_, ?_, ?_, ?_, ?_, ?_, ?_, ?_, ?_, ?_⟩
  · intro r ts d emo h1 h2 h3 h4
    have hne : ts.isEmpty = false := by
      cases ts with
      | nil => simp at h2
      | cons a l => rfl
    rw [lastThemeEmotion, h1]
    simp [hne, h2, h3, h4]
  · intro r h1
    rw [lastThemeEmotion, h1]
  · intro r v h1 h2
    rw [lastThemeEmotion, h1]
    cases v with
    | list xs => exact absurd rfl (h2 xs)
    | none => rfl
    | bool b => rfl
    | int n => rfl
    | float q => rfl
    | str s => rfl
    | dict es => rfl
  · intro r h1
    rw [lastThemeEmotion, h1]
    rfl
  · intro r ts x h1 h2 h3
    have hne : ts.isEmpty = false := by
      cases ts with
      | nil => simp at h2
      | cons a l => rfl
    rw [lastThemeEmotion, h1]
    simp only [hne, Bool.false_eq_true, if_false, h2]
    cases x with
    | dict d => exact absurd rfl (h3 d)
    | none => rfl
    | bool b => rfl
    | int n => rfl
    | float q => rfl
    | str s => rfl
    | list xs => rfl
  · intro r ts d h1 h2 h3
    have hne : ts.isEmpty = false := by
      cases ts with
      | nil => simp at h2
      | cons a l => rfl
    rw [lastThemeEmotion, h1]
    simp [hne, h2, h3]
  · intro r ts d h1 h2 h3
    have hne : ts.isEmpty = false := by
      cases ts with
      | nil => simp at h2
      | cons a l => rfl
    rw [lastThemeEmotion, h1]
    simp [hne, h2, h3, PyVal.isNone]
  · intro r h
    have hall : (CSV_SCHEMA.all fun ct => (rowCell r ct).isSome) = false := by
      rw [← buildRow_isSome, ← extract_row, h]
      rfl
    have hnot : ¬ ∀ ct ∈ CSV_SCHEMA, ((rowCell r ct).isSome = true) := by
      rw [← List.all_eq_true, hall]
      simp
    push_neg at hnot
    obtain ⟨ct, hmem, hcell⟩ := hnot
    have hcell2 : rowCell r ct = Option.none := by
      cases hc : rowCell r ct with
      | none => rfl
      | some b => rw [hc] at hcell; simp at hcell
    by_cases g : ct.1 = "last_theme_emotion"
    · rw [rowCell, if_pos g] at hcell2
      simp at hcell2
    · refine ⟨ct, hmem, g, ?_⟩
      rw [rowCell, if_neg g] at hcell2
      exact hcell2
  · intro r vals h
    have := buildRow_get (rowCell r) CSV_SCHEMA vals h 10
    rw [this]
    rfl
  · intro r t
    rw [extract_row, extract_row, buildRow_isSome, buildRow_isSome]
    apply all_congr_mem
    intro ct hct
    by_cases g : ct.1 = "last_theme_emotion"
    · simp [rowCell, g]
    · have hne : ct.1 ≠ "themes" :=
        schema_cols_ne_themes ct.1 (List.mem_map_of_mem Prod.fst hct)
      have hne2 : ("themes" : String) ≠ ct.1 := fun hh => hne hh.symm
      simp [rowCell, g, extractCell, pyGet, hne2]

/-- C2 witness: the spec's example — the last element of
`[{"emotion":"Happy"},{"emotion":"Sad"}]` gives `"Sad"`. -/
theorem C2_last_theme_emotion_witness :
    lastThemeEmotion recGood = Option.some "Sad" :=
  (C2_last_theme_emotion.1 recGood
    [PyVal.dict [("emotion", PyVal.str "Happy")], PyVal.dict [("emotion", PyVal.str "Sad")]]
    [("emotion", PyVal.str "Sad")] (PyVal.str "Sad") (by rfl) (by rfl) (by rfl) (by rfl)).trans rfl

/-- The record one parsed `.jsonl` line contributes, if any. -/
def lineRecord : Line → Option PyDict
  | Line.value (PyVal.dict d) => Option.some d
  | _ => Option.none

/-- The record one element of a top-level JSON array contributes, if any. -/
def elemRecord : PyVal → Option PyDict
  | PyVal.dict d => Option.some d
  | _ => Option.none

/-- C7: the record reader yields exactly the object-valued records of a
file — for `.jsonl`, one record per line whose value parses to an object
(blank, invalid and non-object lines are dropped without aborting the
file); for `.json`, an object top level yields that one record, an array
top level yields exactly its object elements, any other top-level shape
yields nothing; and a file-level read/parse failure yields nothing. -/
theorem C7_read_json_records :
    (∀ lines : List Line,
       read_json_records (FileData.jsonl lines) = lines.filterMap lineRecord)
    ∧ (∀ d : PyDict, read_json_records (FileData.jsonFile (Option.some (PyVal.dict d))) = [d])
    ∧ (∀ xs : List PyVal,
         read_json_records (FileData.jsonFile (Option.some (PyVal.list xs))) = xs.filterMap elemRecord)
    ∧ (∀ v : PyVal, (∀ d, v ≠ PyVal.dict d) → (∀ xs, v ≠ PyVal.list xs) →
         read_json_records (FileData.jsonFile (Option.some v)) = [])
    ∧ read_json_records (FileData.jsonFile Option.none) = []
    ∧ read_json_records FileData.unreadable = [] := by
  refine ⟨?_, fun d => rfl, ?_, ?_, rfl, rfl⟩
  · intro lines
    induction lines with
    | nil => rfl
    | cons l rest ih =>
        cases l with
        | blank => simpa [readLines, lineRecord, List.filterMap_cons] using ih
        | invalid => simpa [readLines, lineRecord, List.filterMap_cons] using ih
        | value v =>
            cases v <;>
              simpa [read_json_records, readLines, lineRecord, List.filterMap_cons] using ih
  · intro xs
    induction xs with
    | nil => rfl
    | cons x rest ih =>
        cases x <;>
          simpa [read_json_records, readElems, elemRecord, List.filterMap_cons] using ih
  · intro v h1 h2
    cases v with
    | dict d => exact absurd rfl (h1 d)
    | list xs => exact absurd rfl (h2 xs)
    | none => rfl
    | bool b => rfl
    | int n => rfl
    | float q => rfl
    | str s => rfl

/-- C7 witness: a non-object, non-array top level (the number 3) yields no
records. -/
theorem C7_read_json_records_witness :
    read_json_records (FileData.jsonFile (Option.some (PyVal.int 3))) = [] :=
  C7_read_json_records.2.2.2.1 (PyVal.int 3)
    (fun _ h => PyVal.noConfusion h) (fun _ h => PyVal.noConfusion h)

/-- One record-loop step counts the record as seen exactly once. -/
lemma processRecord_seen (st : PState) (rec : PyDict) :
    (processRecord st rec).seen = st.seen + 1 := by
  cases hv : (validate_schema rec).1 <;> cases he : extract_row rec <;>
    simp [processRecord, hv, he]

/-- One record-loop step adds exactly one to written-plus-skipped. -/
lemma processRecord_balance (st : PState) (rec : PyDict) :
    (processRecord st rec).rows.length + (processRecord st rec).skipped
      = st.rows.length + st.skipped + 1 := by
  cases hv : (validate_schema rec).1 <;> cases he : extract_row rec <;>
    simp [processRecord, hv, he] <;> omega

/-- Folding the record loop over a record list advances both `seen` and
written-plus-skipped by the number of records. -/
lemma foldl_processRecord (recs : List PyDict) (st : PState) :
    ((recs.foldl processRecord st).seen = st.seen + recs.length)
    ∧ ((recs.foldl processRecord st).rows.length + (recs.foldl processRecord st).skipped
        = st.rows.length + st.skipped + recs.length) := by
  induction recs generalizing st with
  | nil => simp
  | cons rec recs ih =>
      have h1 := processRecord_seen st rec
      have h2 := processRecord_balance st rec
      have h3 := ih (processRecord st rec)
      simp only [List.foldl_cons, List.length_cons]
      omega

/-- Folding the file loop advances both quantities by the total number of
records the files yield. -/
lemma foldl_processFile (files : List FileData) (st : PState) :
    ((files.foldl processFile st).seen
       = st.seen + (files.map fun f => (read_json_records f).length).sum)
    ∧ ((files.foldl processFile st).rows.length + (files.foldl processFile st).skipped
       = st.rows.length + st.skipped + (files.map fun f => (read_json_records f).length).sum) := by
  induction files generalizing st with
  | nil => simp
  | cons f files ih =>
      have h1 := foldl_processRecord (read_json_records f) st
      have h2 := ih (List.foldl processRecord st (read_json_records f))
      simp only [List.foldl_cons, List.map_cons, List.sum_cons, processFile]
      omega

/-- C3: at the end of a run, seen = written + skipped, and seen counts
exactly the records the reader yielded (invalid-JSON lines and non-object
values never reach the counter); concretely, the spec's three-line `.jsonl`
scenario gives seen 2, one written row and one skipped record. -/
theorem C3_counters_invariant :
    (∀ files : List FileData,
       (pipelineState files).seen
         = (pipelineState files).rows.length + (pipelineState files).skipped
       ∧ (pipelineState files).seen
         = (files.map fun f => (read_json_records f).length).sum)
    ∧ (pipelineState [scenarioFile]).seen = 2
    ∧ (pipelineState [scenarioFile]).rows.length = 1
    ∧ (pipelineState [scenarioFile]).skipped = 1 := by
  refine ⟨?_, by rfl, by rfl, by rfl⟩
  intro files
  have h := foldl_processFile files { rows := [], seen := 0, skipped := 0 }
  simp only [List.length_nil] at h
  rw [pipelineState]
  constructor
  · omega
  · simpa using h.1

/-- C6: when a validated record's extraction fails, the record-loop step
leaves the accumulated rows unchanged (no partial row), counts the record
seen and skipped, and the fold goes on with the remaining records; the file
fold likewise goes on with the remaining files. -/
theorem C6_extraction_failure_atomic :
    ∀ (st : PState) (rec : PyDict) (rest : List PyDict) (f : FileData) (fs : List FileData),
      (validate_schema rec).1 = true → extract_row rec = Option.none →
      processRecord st rec = { rows := st.rows, seen := st.seen + 1, skipped := st.skipped + 1 }
      ∧ (rec :: rest).foldl processRecord st
          = rest.foldl processRecord { rows := st.rows, seen := st.seen + 1, skipped := st.skipped + 1 }
      ∧ (f :: fs).foldl processFile st = fs.foldl processFile (processFile st f) := by
  intro st rec rest f fs hv he
  have h1 : processRecord st rec = { rows := st.rows, seen := st.seen + 1, skipped := st.skipped + 1 } := by
    simp [processRecord, hv, he]
  exact ⟨h1, by rw [List.foldl_cons, h1], by rw [List.foldl_cons]⟩

/-- C6 witness: the record whose `food_program` is the string "maybe"
passes validation, fails extraction, and is skipped atomically. -/
theorem C6_extraction_failure_atomic_witness :
    processRecord { rows := [], seen := 0, skipped := 0 } recCoerceFail
      = { rows := [], seen := 1, skipped := 1 } :=
  (C6_extraction_failure_atomic { rows := [], seen := 0, skipped := 0 } recCoerceFail []
    FileData.unreadable [] (by rfl) (by rfl)).1

/-- The missing-field filter is empty exactly when every required field is
a key of the record. -/
lemma missing_nil_iff (r : PyDict) :
    (REQUIRED_FIELDS.filter fun f => !(keys r).contains f) = []
      ↔ ∀ f ∈ REQUIRED_FIELDS, f ∈ keys r := by
  rw [List.filter_eq_nil_iff]
  constructor
  · intro h f hf
    simpa using h f hf
  · intro h f hf
    simpa using h f hf

/-- Validation accepts a record exactly when no required field is
missing and each of the three checked fields, when present, has an
admissible shape. -/
lemma valid_iff (r : PyDict) :
    (validate_schema r).1 = true ↔
      ((REQUIRED_FIELDS.filter fun f => !(keys r).contains f) = []
       ∧ (∀ v, pyGet r "total_call_time" = Option.some v → numericLike v = true)
       ∧ (∀ v, pyGet r "sentiment_score" = Option.some v → numericLike v = true)
       ∧ (∀ v, pyGet r "food_program" = Option.some v → boolLike v = true)) := by
  simp only [validate_schema]
  rw [List.isEmpty_iff, List.append_eq_nil, List.append_eq_nil, List.append_eq_nil]
  constructor
  · rintro ⟨⟨⟨h1, h2⟩, h3⟩, h4⟩
    refine ⟨?_, ?_, ?_, ?_⟩
    · cases hm : (REQUIRED_FIELDS.filter fun f => !(keys r).contains f).isEmpty
      · rw [hm] at h1
        simp at h1
      · exact List.isEmpty_iff.mp hm
    · intro v hv
      simp only [hv] at h2
      by_contra hnl
      rw [if_pos (by simp [hnl])] at h2
      exact absurd h2 (by simp)
    · intro v hv
      simp only [hv] at h3
      by_contra hnl
      rw [if_pos (by simp [hnl])] at h3
      exact absurd h3 (by simp)
    · intro v hv
      simp only [hv] at h4
      by_contra hnl
      rw [if_pos (by simp [hnl])] at h4
      exact absurd h4 (by simp)
  · rintro ⟨h1, h2, h3, h4⟩
    refine ⟨⟨⟨?_, ?_⟩, ?_⟩, ?_⟩
    · have h1e : (REQUIRED_FIELDS.filter fun f => !(keys r).contains f).isEmpty = true := by
        rw [h1]
        rfl
      rw [h1e]
      rfl
    · cases hv : pyGet r "total_call_time" with
      | none => simp
      | some v => simp [h2 v hv]
    · cases hv : pyGet r "sentiment_score" with
      | none => simp
      | some v => simp [h3 v hv]
    · cases hv : pyGet r "food_program" with
      | none => simp
      | some v => simp [h4 v hv]

/-- C5: validation succeeds exactly when every required field name is a key
of the record (the required set being the 12 schema columns other than
`last_theme_emotion`, with `themes` never required) and each of the three
shape checks passes for its field when present (number, string or boolean
for `total_call_time` and `sentiment_score`; boolean, string or integer for
`food_program`); when fields are missing, the recorded error names them in
sorted order; and validity does not guarantee that extraction succeeds. -/
theorem C5_validate_schema_spec :
    (REQUIRED_FIELDS = (CSV_SCHEMA.map Prod.fst).filter fun f => f ≠ "last_theme_emotion")
    ∧ ("themes" ∉ REQUIRED_FIELDS)
    ∧ (∀ r : PyDict, (validate_schema r).1 = true ↔
        ((∀ f ∈ REQUIRED_FIELDS, f ∈ keys r)
         ∧ (∀ v, pyGet r "total_call_time" = Option.some v → numericLike v = true)
         ∧ (∀ v, pyGet r "sentiment_score" = Option.some v → numericLike v = true)
         ∧ (∀ v, pyGet r "food_program" = Option.some v → boolLike v = true)))
    ∧ (∀ r : PyDict, (REQUIRED_FIELDS.filter fun f => !(keys r).contains f) ≠ [] →
         VErr.missingFields (pySorted (REQUIRED_FIELDS.filter fun f => !(keys r).contains f))
           ∈ (validate_schema r).2
         ∧ List.Sorted (· ≤ ·) (pySorted (REQUIRED_FIELDS.filter fun f => !(keys r).contains f))
         ∧ (∀ f, f ∈ pySorted (REQUIRED_FIELDS.filter fun g => !(keys r).contains g)
              ↔ (f ∈ REQUIRED_FIELDS ∧ f ∉ keys r)))
    ∧ ((validate_schema recCoerceFail).1 = true ∧ extract_row recCoerceFail = Option.none) := by
  refine ⟨by decide, by decide, ?_, ?_, by rfl, by rfl⟩
  · intro r
    rw [valid_iff, missing_nil_iff]
  · intro r hm
    have hh : (REQUIRED_FIELDS.filter fun f => !(keys r).contains f).isEmpty = false := by
      cases hmm : (REQUIRED_FIELDS.filter fun f => !(keys r).contains f).isEmpty
      · rfl
      · exact absurd (List.isEmpty_iff.mp hmm) hm
    refine ⟨?_, ?_, ?_⟩
    · simp only [validate_schema]
      apply List.mem_append_left
      apply List.mem_append_left
      apply List.mem_append_left
      rw [hh]
      simp
    · exact List.sorted_insertionSort (· ≤ ·) _
    · intro f
      rw [pySorted, (List.perm_insertionSort (· ≤ ·) _).mem_iff, List.mem_filter]
      simp

/-- C5 witness: the record missing `account_id` yields a missing-field
error carrying the sorted missing list. -/
theorem C5_validate_schema_spec_witness :
    VErr.missingFields (pySorted (REQUIRED_FIELDS.filter fun f => !(keys recNoAcct).contains f))
      ∈ (validate_schema recNoAcct).2 :=
  (C5_validate_schema_spec.2.2.2.1 recNoAcct (by decide)).1

/-- C10: a null value under `total_call_time`, `sentiment_score` or
`food_program` fails validation (null is not an admissible shape for the
three checked fields), whereas a null under another required key such as
`callid` passes validation and is emitted as a null cell of the row. -/
theorem C10_null_value_handling :
    (∀ r : PyDict, pyGet r "total_call_time" = Option.some PyVal.none → (validate_schema r).1 = false)
    ∧ (∀ r : PyDict, pyGet r "sentiment_score" = Option.some PyVal.none → (validate_schema r).1 = false)
    ∧ (∀ r : PyDict, pyGet r "food_program" = Option.some PyVal.none → (validate_schema r).1 = false)
    ∧ ((validate_schema recNullCallid).1 = true
       ∧ extract_row recNullCallid = Option.some
           [PyVal.none, PyVal.str "f", PyVal.str "t", PyVal.str "a", PyVal.str "acc",
            PyVal.float (mkRat 3 1), PyVal.str "p", PyVal.str "ct", PyVal.str "cc", PyVal.str "co",
            PyVal.none, PyVal.int 4, PyVal.bool true]) := by
  refine ⟨?_, ?_, ?_, by rfl, by rfl⟩
  · intro r h
    cases hv : (validate_schema r).1
    · rfl
    · have h2 := ((valid_iff r).mp hv).2.1 PyVal.none h
      simp [numericLike] at h2
  · intro r h
    cases hv : (validate_schema r).1
    · rfl
    · have h2 := ((valid_iff r).mp hv).2.2.1 PyVal.none h
      simp [numericLike] at h2
  · intro r h
    cases hv : (validate_schema r).1
    · rfl
    · have h2 := ((valid_iff r).mp hv).2.2.2 PyVal.none h
      simp [boolLike] at h2

/-- C10 witness: a record whose `total_call_time` is null is rejected by
validation. -/
theorem C10_null_value_handling_witness :
    (validate_schema recNullTct).1 = false :=
  C10_null_value_handling.1 recNullTct (by rfl)
